import Mathlib

/-
Shallow embedding of the piper-api service layer (main.py and mcp_server.py).

Modelling conventions:
- Python floats are modelled as exact rationals where only finite arithmetic is
  claim-relevant (PCM gain: sample times volume, truncation toward zero, clamp).
  Where non-finite behaviour matters (the rate to length_scale reciprocal), a
  small PyFloat type with finite, nan, inf and neginf values is used; IEEE
  reciprocal semantics are modelled exactly on those constructors (1/nan = nan,
  1/inf = 0, division by the float 0.0 raises ZeroDivisionError).
- Python int() applied to a float truncates toward zero; on an exact rational
  num/den this is Int.tdiv num den.
- Python truthiness: None and 0.0 are falsy, nan and inf are truthy.
- 16-bit PCM byte strings are modelled at sample granularity as List Int
  (array "h" decoding and the WAV/RIFF framing are bijective recodings and
  carry no claim-relevant logic).
- Module state (the _loaded_voices dict plus a count of piper.PiperVoice.load
  invocations) is threaded explicitly as a VoiceState value; filesystem and
  engine effects (os.path.exists, PiperVoice.load, voice.synthesize) are
  supplied as oracle functions in an Env record.
- Error strings are abbreviated versions of the Python messages.
-/

/-- Model of a Python float value: a finite value (exact rational) or one of
the non-finite values nan, +inf, -inf. -/
inductive PyFloat where
  | finite (q : ℚ)
  | nan
  | inf
  | neginf
deriving DecidableEq

/-- Python truthiness of a float: 0.0 is falsy, every other float (including
nan and the infinities) is truthy. -/
def isTruthy (x : PyFloat) : Bool :=
  match x with
  | .finite q => q != 0
  | _ => true

/-- Python truthiness of an Optional[float]: None is falsy. -/
def optTruthy (x : Option PyFloat) : Bool :=
  match x with
  | none => false
  | some v => isTruthy v

/-- Model of the guarded reciprocal in main.py line 150 and mcp_server.py
line 186: `try: length_scale = 1.0 / float(req.rate) except Exception: pass`.
Returns none when the division raises (only for the float 0.0); 1/nan = nan
and 1/(+-inf) = 0.0 do not raise in Python. The sign of zero is not modelled. -/
def recipTry (x : PyFloat) : Option PyFloat :=
  match x with
  | .finite q => if q = 0 then none else some (.finite q⁻¹)
  | .nan => some .nan
  | .inf => some (.finite 0)
  | .neginf => some (.finite 0)

/-- Python abs on an exact rational. -/
def pyAbsQ (q : ℚ) : ℚ :=
  if q < 0 then -q else q

/-- Python int() on a float value, modelled exactly on rationals: truncation
toward zero. -/
def pyInt (q : ℚ) : ℤ :=
  q.num.tdiv (q.den : ℤ)

/-- The sequential clamp of main.py lines 119-120:
`if v > 32767: v = 32767` then `if v < -32768: v = -32768`. -/
def clamp16 (v : ℤ) : ℤ :=
  let v1 := if v > 32767 then 32767 else v
  if v1 < -32768 then -32768 else v1

/-- One iteration of the gain loop, main.py lines 118-121:
`v = int(a[i] * gain)` followed by the clamp. -/
def gainSample (v : ℚ) (s : ℤ) : ℤ :=
  clamp16 (pyInt ((s : ℚ) * v))

/-- _apply_post_gain (main.py lines 109-122) at sample granularity. The guard
`if not volume or abs(volume - 1.0) < 1e-6: return pcm_bytes` passes the input
through when volume is None, 0.0, or within 1e-6 of 1.0. -/
def applyPostGain (samples : List ℤ) (volume : Option ℚ) : List ℤ :=
  match volume with
  | none => samples
  | some v =>
    if v = 0 ∨ pyAbsQ (v - 1) < 1 / 1000000 then samples
    else samples.map (gainSample v)

/-- The per-chunk call site shared by main.py lines 176-177 and mcp_server.py
lines 211-212: `if req.volume and abs(req.volume - 1.0) > 1e-6:
audio_data = _apply_post_gain(audio_data, req.volume)`. -/
def processChunk (chunk : List ℤ) (volume : Option ℚ) : List ℤ :=
  match volume with
  | none => chunk
  | some v =>
    if v ≠ 0 ∧ pyAbsQ (v - 1) > 1 / 1000000 then applyPostGain chunk (some v)
    else chunk

/-- The PCM payload written to the WAV data chunk: each engine chunk passes
through the gain call site and the results are concatenated in order
(wf.writeframes per chunk). -/
def renderPCM (chunks : List (List ℤ)) (volume : Option ℚ) : List ℤ :=
  (chunks.map (fun c => processChunk c volume)).flatten

/-- SynthesisRequest (main.py lines 26-35). Gain-relevant volume is modelled
over exact rationals; the fields feeding the parameter mapper use PyFloat so
that non-finite inputs are representable. -/
structure SynthesisRequest where
  text : String
  speaker : Option ℤ
  noise_scale : Option PyFloat
  length_scale : Option PyFloat
  noise_w : Option PyFloat
  sentence_silence : Option PyFloat
  rate : Option PyFloat
  volume : Option ℚ
deriving DecidableEq

/-- piper.SynthesisConfig as assigned by the glue code: a field is some x
exactly when the corresponding conditional assignment in main.py lines 160-164
executed; none means the engine default stays in effect. -/
structure SynthesisConfig where
  speaker_id : Option ℤ
  noise_scale : Option PyFloat
  length_scale : Option PyFloat
  noise_w : Option PyFloat
  sentence_silence : Option PyFloat
deriving DecidableEq

/-- The rate to length_scale mapping of main.py lines 146-152 (duplicated at
mcp_server.py lines 183-188):
`length_scale = req.length_scale` then
`if req.rate and not length_scale: try: length_scale = 1.0 / float(req.rate)
except Exception: pass`. -/
def effLengthScale (ls rate : Option PyFloat) : Option PyFloat :=
  if optTruthy rate && !optTruthy ls then
    match rate with
    | some r =>
      match recipTry r with
      | some v => some v
      | none => ls
    | none => ls
  else ls

/-- Effective length_scale of a request. -/
def effLS (req : SynthesisRequest) : Option PyFloat :=
  effLengthScale req.length_scale req.rate

/-- Construction of the optional synthesis config, main.py lines 156-164:
syn_config stays None unless at least one of speaker, noise_scale, effective
length_scale, noise_w, sentence_silence is not None; each present field is
assigned onto the config object. -/
def buildSynConfig (req : SynthesisRequest) : Option SynthesisConfig :=
  let ls := effLS req
  if req.speaker.isSome || req.noise_scale.isSome || ls.isSome ||
      req.noise_w.isSome || req.sentence_silence.isSome then
    some { speaker_id := req.speaker
           noise_scale := req.noise_scale
           length_scale := ls
           noise_w := req.noise_w
           sentence_silence := req.sentence_silence }
  else
    none

/-- Python str.strip() with no argument: remove leading and trailing
whitespace characters. -/
def pyStrip (s : String) : String :=
  String.mk (((s.data.dropWhile Char.isWhitespace).reverse.dropWhile Char.isWhitespace).reverse)

/-- The attributes of a loaded PiperVoice object that _get_sample_rate probes
(main.py lines 100-107): sample_rate_hz preferred, then sample_rate; none
models a missing or non-integer attribute. -/
structure Voice where
  sample_rate_hz : Option ℤ
  sample_rate : Option ℤ
deriving DecidableEq

/-- One probe step of _get_sample_rate: accept the attribute value only when
it is a positive integer. -/
def srCandidate (o : Option ℤ) : Option ℤ :=
  match o with
  | some sr => if 0 < sr then some sr else none
  | none => none

/-- _get_sample_rate (main.py lines 100-107): first positive integer among
sample_rate_hz and sample_rate, else the fixed fallback 22050. -/
def getSampleRate (v : Voice) : ℤ :=
  ((srCandidate v.sample_rate_hz).orElse (fun _ => srCandidate v.sample_rate)).getD 22050

/-- The process environment seen by the service: the VOICES table discovered
at startup, the filesystem existence oracle, the engine loader
(piper.PiperVoice.load) and the engine synthesis stream (voice.synthesize,
returning PCM chunks at sample granularity or an engine failure). -/
structure Env where
  voices : List (String × String)
  configExists : String → Bool
  piperLoad : String → String → Voice
  synthChunks : String → Option SynthesisConfig → Except String (List (List ℤ))

/-- Module-level mutable state: the _loaded_voices cache (main.py line 83)
plus a counter of piper.PiperVoice.load invocations (for the at-most-one-load
property). -/
structure VoiceState where
  loadedVoices : List (String × Voice)
  loadCount : Nat
deriving DecidableEq

/-- An HTTPException with a status code and detail string. -/
inductive HErr where
  | http (status : Nat) (detail : String)
deriving DecidableEq

/-- _load_voice (main.py lines 85-98): return the cached handle on a hit;
otherwise resolve the model path in VOICES (404 when absent), require the
sibling .json config (400 when missing), load the engine, store the handle. -/
def loadVoice (env : Env) (name : String) (st : VoiceState) :
    Except HErr Voice × VoiceState :=
  match st.loadedVoices.lookup name with
  | some v => (.ok v, st)
  | none =>
    match env.voices.lookup name with
    | none => (.error (.http 404 "Voice not found"), st)
    | some modelPath =>
      if env.configExists (modelPath ++ ".json") then
        let v := env.piperLoad modelPath (modelPath ++ ".json")
        (.ok v, { loadedVoices := (name, v) :: st.loadedVoices
                  loadCount := st.loadCount + 1 })
      else
        (.error (.http 400 "Config JSON not found"), st)

/-- The POST /synthesize/{voice_name} handler (main.py lines 132-181),
returning the processed PCM chunks (WAV framing elided), the updated cache
state, and the number of engine synthesize invocations. The empty-text check
precedes the VOICES membership check, which precedes _load_voice. -/
def synth (env : Env) (voiceName : String) (req : SynthesisRequest)
    (st : VoiceState) : Except HErr (List (List ℤ)) × VoiceState × Nat :=
  if pyStrip req.text = "" then
    (.error (.http 400 "Empty text"), st, 0)
  else if (env.voices.lookup voiceName).isNone then
    (.error (.http 404 "Voice not found"), st, 0)
  else
    match loadVoice env voiceName st with
    | (.error e, st1) => (.error e, st1, 0)
    | (.ok _, st1) =>
      match env.synthChunks req.text (buildSynConfig req) with
      | .error e => (.error (.http 500 e), st1, 1)
      | .ok chunks => (.ok (chunks.map (fun c => processChunk c req.volume)), st1, 1)

/-- The arguments dict of an MCP tool call (mcp_server.py): every field
optional, absent keys modelled as none. -/
structure ToolArgs where
  text : Option String
  voice : Option String
  speaker : Option ℤ
  noise_scale : Option PyFloat
  length_scale : Option PyFloat
  noise_w : Option PyFloat
  sentence_silence : Option PyFloat
  rate : Option PyFloat
  volume : Option ℚ

/-- The body of the try block of _handle_text_to_speech (mcp_server.py lines
152-229): validations raise ValueError (modelled as Except.error), then the
same load, mapping, synthesis and gain steps as the HTTP handler run; the
success value is the textual summary (base64 payload elided). -/
def ttsBody (env : Env) (st : VoiceState) (args : ToolArgs) :
    Except String (List String) × VoiceState :=
  let text := pyStrip (args.text.getD "")
  if text = "" then (.error "Text cannot be empty", st)
  else
    match args.voice with
    | none => (.error "Voice must be specified", st)
    | some vn =>
      if vn = "" then (.error "Voice must be specified", st)
      else if (env.voices.lookup vn).isNone then (.error "Voice not found", st)
      else
        let req : SynthesisRequest :=
          { text := text
            speaker := args.speaker
            noise_scale := args.noise_scale
            length_scale := args.length_scale
            noise_w := args.noise_w
            sentence_silence := args.sentence_silence
            rate := args.rate
            volume := args.volume }
        match loadVoice env vn st with
        | (.error _, st1) => (.error "HTTPException from voice load", st1)
        | (.ok v, st1) =>
          match env.synthChunks req.text (buildSynConfig req) with
          | .error e => (.error e, st1)
          | .ok chunks =>
            let pcm := (chunks.map (fun c => processChunk c req.volume)).flatten
            (.ok ["Successfully synthesized speech, " ++ toString (getSampleRate v) ++
                  "Hz, " ++ toString (2 * pcm.length) ++ " bytes"], st1)

/-- _handle_text_to_speech (mcp_server.py lines 150-237): the whole body runs
inside try/except Exception, so every failure becomes textual error content;
cache mutations made before a failure persist. -/
def handleTextToSpeech (env : Env) (st : VoiceState) (args : ToolArgs) :
    List String × VoiceState :=
  match ttsBody env st args with
  | (.ok msgs, st1) => (msgs, st1)
  | (.error e, st1) => (["Error during text-to-speech synthesis: " ++ e], st1)

/-- _handle_list_voices (mcp_server.py lines 240-281): total, wrapped in
try/except; always returns textual content. -/
def handleListVoices (env : Env) : List String :=
  if env.voices.isEmpty then
    ["No voices are currently available."]
  else
    ["Available TTS voices: " ++ String.intercalate ", " (env.voices.map Prod.fst)]

/-- _handle_get_voice_info (mcp_server.py lines 284-342): validations raise
inside a try/except that converts them to textual content; a missing or
unreadable config degrades to a partial report. -/
def handleGetVoiceInfo (env : Env) (args : ToolArgs) : List String :=
  match args.voice with
  | none => ["Error getting voice info: Voice name must be specified"]
  | some vn =>
    if vn = "" then ["Error getting voice info: Voice name must be specified"]
    else
      match env.voices.lookup vn with
      | none => ["Error getting voice info: Voice not found"]
      | some modelPath =>
        if env.configExists (modelPath ++ ".json") then
          ["Voice: " ++ vn, "Model Path: " ++ modelPath]
        else
          ["Voice: " ++ vn, "Model Path: " ++ modelPath, "Config: No config file found"]

/-- handle_call_tool (mcp_server.py lines 136-147): dispatch on the tool name;
an unknown tool name raises ValueError (modelled as Except.error), every known
tool returns textual content. -/
def handleCallTool (env : Env) (st : VoiceState) (name : String)
    (args : ToolArgs) : Except String (List String × VoiceState) :=
  if name = "text_to_speech" then .ok (handleTextToSpeech env st args)
  else if name = "list_voices" then .ok (handleListVoices env, st)
  else if name = "get_voice_info" then .ok (handleGetVoiceInfo env args, st)
  else .error ("Unknown tool: " ++ name)

/-- True exactly when a tool-call result is content rather than a propagated
exception. -/
def isOkResult (r : Except String (List String × VoiceState)) : Bool :=
  match r with
  | .ok _ => true
  | .error _ => false

/-- A concrete environment with one registered voice, its config present, and
a total engine. -/
def envW : Env :=
  { voices := [("alice", "models/alice.onnx")]
    configExists := fun _ => true
    piperLoad := fun _ _ => { sample_rate_hz := some 22050, sample_rate := none }
    synthChunks := fun _ _ => .ok [[1, 2], [3]] }

/-- The empty cache state at process start. -/
def stW : VoiceState := { loadedVoices := [], loadCount := 0 }

/-- The loaded handle envW.piperLoad produces for the voice alice. -/
def vW : Voice := { sample_rate_hz := some 22050, sample_rate := none }

/-- The cache state after the first load of alice. -/
def stW1 : VoiceState := { loadedVoices := [("alice", vW)], loadCount := 1 }

/-- An arguments dict with every key absent. -/
def argsW : ToolArgs :=
  { text := none, voice := none, speaker := none, noise_scale := none, length_scale := none
    noise_w := none, sentence_silence := none, rate := none, volume := none }

/-- A request whose text is whitespace-only and every parameter absent. -/
def reqWS : SynthesisRequest :=
  { text := " \n ", speaker := none, noise_scale := none, length_scale := none
    noise_w := none, sentence_silence := none, rate := none, volume := none }

/-- A request with explicit length_scale 0.8 and rate 2.0. -/
def reqLS : SynthesisRequest :=
  { text := "hi", speaker := none, noise_scale := none
    length_scale := some (PyFloat.finite (4/5)), noise_w := none
    sentence_silence := none, rate := some (PyFloat.finite 2), volume := none }

/-- A request with every optional field absent. -/
def reqAllNone : SynthesisRequest :=
  { text := "hi", speaker := none, noise_scale := none, length_scale := none
    noise_w := none, sentence_silence := none, rate := none, volume := none }

/-- A request whose only set parameter is noise_scale = 0.0. -/
def reqNoiseZero : SynthesisRequest :=
  { text := "hi", speaker := none, noise_scale := some (PyFloat.finite 0)
    length_scale := none, noise_w := none, sentence_silence := none
    rate := none, volume := none }

/-- The config object produced for reqNoiseZero. -/
def cfgNoiseZero : SynthesisConfig :=
  { speaker_id := none, noise_scale := some (PyFloat.finite 0)
    length_scale := none, noise_w := none, sentence_silence := none }

/-- Helper: a failed association-list lookup means the key is not among the
stored keys. -/
theorem lookup_none_notin {β : Type} (l : List (String × β)) (a : String)
    (h : l.lookup a = none) : a ∉ l.map Prod.fst := by
  induction l with
  | nil => simp
  | cons x xs ih =>
    by_cases hax : a = x.1
    · subst hax
      simp [List.lookup] at h
    · intro hmem
      rcases List.mem_cons.mp hmem with h1 | h1
      · exact hax h1
      · have h2 : xs.lookup a = none := by
          cases hx : xs.lookup a with
          | none => rfl
          | some b =>
            have hb : (a == x.1) = false := beq_eq_false_iff_ne.mpr hax
            simp [List.lookup, hb, hx] at h
        exact ih h2 h1

/-- C1 counterexample: the claim quantifies over every set volume with
|v - 1| > 1e-6, but at volume 0.0 the falsy guard of _apply_post_gain returns
the input unchanged (sample 10000 stays 10000), while the claimed formula
clamp(trunc(s * v)) demands 0. -/
theorem gain_formula_fails_at_zero_volume :
    pyAbsQ ((0 : ℚ) - 1) > 1 / 1000000 ∧
    applyPostGain [10000] (some 0) = [10000] ∧
    clamp16 (pyInt ((10000 : ℚ) * 0)) = 0 ∧
    (10000 : ℤ) ≠ 0 := by
  refine ⟨by norm_num [pyAbsQ], by norm_num [applyPostGain], ?_, by norm_num⟩
  norm_num [pyInt, clamp16]

/-- C1 amended: for every non-zero volume v with |v - 1| > 1e-6, the gain
stage maps each 16-bit sample s to clamp16 (pyInt (s * v)), i.e. multiply,
truncate toward zero, then clamp to [-32768, 32767]; in particular
10000 at volume 1.2 gives 12000, 30000 at 1.5 clamps to 32767, -30000 at 1.5
clamps to -32768, and the 4.5 / -4.5 cases show truncation toward zero
rather than round-to-nearest or floor. -/
theorem gain_multiplies_truncates_then_clamps :
    (∀ (samples : List ℤ) (v : ℚ), v ≠ 0 → pyAbsQ (v - 1) > 1 / 1000000 →
      applyPostGain samples (some v) = samples.map (gainSample v)) ∧
    applyPostGain [10000] (some (6/5)) = [12000] ∧
    applyPostGain [30000] (some (3/2)) = [32767] ∧
    applyPostGain [-30000] (some (3/2)) = [-32768] ∧
    applyPostGain [3] (some (3/2)) = [4] ∧
    applyPostGain [-3] (some (3/2)) = [-4] := by
  refine ⟨fun samples v hv he => ?_, ?_, ?_, ?_, ?_, ?_⟩
  · have hcond : ¬(v = 0 ∨ pyAbsQ (v - 1) < 1 / 1000000) := by
      rintro (h0 | hlt)
      · exact hv h0
      · exact lt_asymm hlt he
    simp only [applyPostGain]
    exact if_neg hcond
  · norm_num [applyPostGain, gainSample, pyAbsQ, pyInt, clamp16]
  · norm_num [applyPostGain, gainSample, pyAbsQ, pyInt, clamp16]
  · norm_num [applyPostGain, gainSample, pyAbsQ, pyInt, clamp16]
  · norm_num [applyPostGain, gainSample, pyAbsQ, pyInt, clamp16]
    decide
  · norm_num [applyPostGain, gainSample, pyAbsQ, pyInt, clamp16]
    decide

/-- C1 witness: the general gain formula instantiated at sample 10000 and
volume 6/5. -/
theorem gain_multiplies_truncates_then_clamps_witness :
    applyPostGain [10000] (some ((6 : ℚ)/5)) = List.map (gainSample ((6 : ℚ)/5)) [10000] :=
  gain_multiplies_truncates_then_clamps.1 [10000] (6/5) (by norm_num) (by norm_num [pyAbsQ])

/-- C2: when volume is unset, or differs from 1.0 by at most 1e-6, the
pipeline output equals the concatenation of the engine chunks (gain is the
identity), at the call site and inside _apply_post_gain; and whenever the
per-chunk gain stage changes a chunk, volume was set with |v - 1| > 1e-6. -/
theorem pipeline_passthrough_when_volume_unset_or_near_one :
    (∀ chunks : List (List ℤ), renderPCM chunks none = chunks.flatten) ∧
    (∀ (chunks : List (List ℤ)) (v : ℚ), pyAbsQ (v - 1) ≤ 1 / 1000000 →
      renderPCM chunks (some v) = chunks.flatten) ∧
    (∀ (samples : List ℤ) (v : ℚ), pyAbsQ (v - 1) < 1 / 1000000 →
      applyPostGain samples (some v) = samples) ∧
    (∀ (c : List ℤ) (vol : Option ℚ), processChunk c vol ≠ c →
      ∃ v, vol = some v ∧ pyAbsQ (v - 1) > 1 / 1000000) := by
  refine ⟨fun chunks => by simp [renderPCM, processChunk], fun chunks v h => ?_,
    fun samples v h => ?_, fun c vol h => ?_⟩
  · have hcond : ¬(v ≠ 0 ∧ pyAbsQ (v - 1) > 1 / 1000000) := by
      rintro ⟨-, hgt⟩
      exact absurd h (not_le.mpr hgt)
    have hfun : (fun c => processChunk c (some v)) = fun c : List ℤ => c :=
      funext fun c => by simp only [processChunk]; exact if_neg hcond
    rw [renderPCM, hfun, List.map_id']
  · simp only [applyPostGain]
    exact if_pos (Or.inr h)
  · match vol with
    | none => exact absurd rfl h
    | some v =>
      by_cases hc : v ≠ 0 ∧ pyAbsQ (v - 1) > 1 / 1000000
      · exact ⟨v, rfl, hc.2⟩
      · rw [processChunk] at h
        simp only [if_neg hc] at h
        exact absurd rfl h

/-- C2 witness: volume exactly 1.0 on concrete chunks is byte-identical
passthrough. -/
theorem pipeline_passthrough_when_volume_unset_or_near_one_witness :
    renderPCM [[1, 2], [3]] (some 1) = List.flatten [[1, 2], [3]] :=
  pipeline_passthrough_when_volume_unset_or_near_one.2.1 [[1, 2], [3]] 1 (by norm_num [pyAbsQ])

/-- C3: _load_voice is idempotent. If a call returns handle v with state st1,
then a second call for the same name returns the same handle and leaves the
state (cache contents and engine-load count) unchanged — and does so for
every environment, so the hit path performs no registry lookup, no file I/O
and no engine instantiation; since the handle is identical, the derived
sample rate getSampleRate v is identical across both calls. The first call
raised the load count by at most one, and distinctness of cached names is
preserved, so at most one LoadedVoice per name ever exists. -/
theorem get_or_load_idempotent (env : Env) (name : String) (st st' : VoiceState)
    (v : Voice) (h : loadVoice env name st = (.ok v, st')) :
    (∀ env2 : Env, loadVoice env2 name st' = (.ok v, st')) ∧
    st'.loadCount ≤ st.loadCount + 1 ∧
    ((st.loadedVoices.map Prod.fst).Nodup → (st'.loadedVoices.map Prod.fst).Nodup) := by
  unfold loadVoice at h
  cases h1 : st.loadedVoices.lookup name with
  | some w =>
    simp only [h1, Prod.mk.injEq, Except.ok.injEq] at h
    obtain ⟨hv, hst⟩ := h
    subst hv
    subst hst
    refine ⟨fun env2 => ?_, Nat.le_succ _, fun hnd => hnd⟩
    unfold loadVoice
    rw [h1]
  | none =>
    simp only [h1] at h
    cases h2 : env.voices.lookup name with
    | none => simp [h2] at h
    | some p =>
      simp only [h2] at h
      by_cases h3 : env.configExists (p ++ ".json") = true
      · simp only [h3, if_true, Prod.mk.injEq, Except.ok.injEq] at h
        obtain ⟨hv, hst⟩ := h
        subst hv
        refine ⟨fun env2 => ?_, ?_, fun hnd => ?_⟩
        · unfold loadVoice
          rw [← hst]
          simp [List.lookup]
        · rw [← hst]
        · rw [← hst]
          simp only [List.map_cons, List.nodup_cons]
          exact ⟨lookup_none_notin _ _ h1, hnd⟩
      · simp [h3] at h

/-- C3 witness: loading the registered voice alice from the empty cache and
calling again. -/
theorem get_or_load_idempotent_witness :
    loadVoice envW "alice" stW1 = (.ok vW, stW1) ∧ stW1.loadCount ≤ stW.loadCount + 1 :=
  ⟨(get_or_load_idempotent envW "alice" stW stW1 vW (by rfl)).1 envW,
   (get_or_load_idempotent envW "alice" stW stW1 vW (by rfl)).2.1⟩

/-- C4 counterexample: an explicitly set length_scale of 0.0 is not used
verbatim — the Python falsy test `not length_scale` treats 0.0 as unset, so a
set rate of 2.0 overrides it with 1/rate = 0.5. -/
theorem explicit_zero_length_scale_not_verbatim :
    effLengthScale (some (PyFloat.finite 0)) (some (PyFloat.finite 2)) =
      some (PyFloat.finite (1/2)) ∧
    some (PyFloat.finite ((1 : ℚ)/2)) ≠ some (PyFloat.finite 0) := by
  constructor
  · norm_num [effLengthScale, optTruthy, isTruthy, recipTry]
  · simp only [ne_eq, Option.some.injEq, PyFloat.finite.injEq]
    norm_num

/-- C4 amended: an explicitly set truthy (non-zero) length_scale is used
verbatim and takes precedence over rate; an explicit 0.0 counts as unset
under Python falsiness. In particular explicit 0.8 with rate 2.0 yields 0.8,
and rate 2.0 with length_scale unset yields 0.5. -/
theorem truthy_length_scale_precedence :
    (∀ (req : SynthesisRequest) (x : PyFloat),
      req.length_scale = some x → isTruthy x = true → effLS req = some x) ∧
    (∀ req : SynthesisRequest, req.length_scale = some (PyFloat.finite (4/5)) →
      req.rate = some (PyFloat.finite 2) → effLS req = some (PyFloat.finite (4/5))) ∧
    (∀ req : SynthesisRequest, req.length_scale = none →
      req.rate = some (PyFloat.finite 2) → effLS req = some (PyFloat.finite (1/2))) := by
  refine ⟨fun req x hls hx => ?_, fun req hls hr => ?_, fun req hls hr => ?_⟩
  · simp [effLS, effLengthScale, hls, optTruthy, hx]
  · norm_num [effLS, effLengthScale, hls, hr, optTruthy, isTruthy, recipTry]
  · norm_num [effLS, effLengthScale, hls, hr, optTruthy, isTruthy, recipTry]

/-- C4 witness: the request with explicit length_scale 0.8 and rate 2.0 keeps
0.8. -/
theorem truthy_length_scale_precedence_witness :
    effLS reqLS = some (PyFloat.finite (4/5)) :=
  truthy_length_scale_precedence.2.1 reqLS rfl rfl

/-- C5 counterexample: a request with rate = 1.0 and nothing else produces a
synthesis config object, while a request with no parameters produces None, so
the two mapped results are distinguishable. -/
theorem rate_one_distinguishable_from_unset :
    buildSynConfig ⟨"hi", none, none, none, none, none, some (PyFloat.finite 1), none⟩ ≠
      buildSynConfig ⟨"hi", none, none, none, none, none, none, none⟩ := by
  norm_num [buildSynConfig, effLS, effLengthScale, optTruthy, isTruthy, recipTry]
  exact Option.some_ne_none _

/-- C5 amended: for every text and volume, a request whose only synthesis
parameter is rate = 1.0 is mapped to a config object carrying the override
length_scale = 1.0 (computed as 1/rate), whereas a request with no synthesis
parameters is mapped to None — the two are not indistinguishable. -/
theorem rate_one_produces_length_scale_override :
    ∀ (t : String) (vol : Option ℚ),
      buildSynConfig ⟨t, none, none, none, none, none, some (PyFloat.finite 1), vol⟩ =
        some ⟨none, none, some (PyFloat.finite 1), none, none⟩ ∧
      buildSynConfig ⟨t, none, none, none, none, none, none, vol⟩ = none := by
  intro t vol
  constructor
  · norm_num [buildSynConfig, effLS, effLengthScale, optTruthy, isTruthy, recipTry]
  · norm_num [buildSynConfig, effLS, effLengthScale, optTruthy]

/-- C6 counterexample: with rate = NaN the reciprocal step does not raise and
does not leave length_scale unset — it assigns NaN (1/nan = nan in IEEE
arithmetic, and `not nan` is false, so the except branch never fires). -/
theorem nan_rate_sets_length_scale_not_unset :
    effLengthScale none (some PyFloat.nan) = some PyFloat.nan ∧
    some PyFloat.nan ≠ (none : Option PyFloat) := by
  exact ⟨rfl, by simp⟩

/-- C6 amended: for every truthy rate, the rate-conversion step totally
computes the guarded reciprocal (no exception escapes — the model is a total
function and the except path is only reachable for a zero divisor, excluded
by the truthiness guard); a non-finite rate yields a set value, not an unset
one: rate NaN gives length_scale NaN, rate +-inf gives 0.0, rate 2.0 gives
0.5. -/
theorem rate_reciprocal_total_and_assigned :
    (∀ r : PyFloat, isTruthy r = true → effLengthScale none (some r) = recipTry r) ∧
    effLengthScale none (some PyFloat.nan) = some PyFloat.nan ∧
    effLengthScale none (some PyFloat.inf) = some (PyFloat.finite 0) ∧
    effLengthScale none (some PyFloat.neginf) = some (PyFloat.finite 0) ∧
    effLengthScale none (some (PyFloat.finite 2)) = some (PyFloat.finite (1/2)) := by
  refine ⟨fun r hr => ?_, rfl, rfl, rfl, ?_⟩
  · simp only [effLengthScale, optTruthy, hr, Bool.not_false, Bool.and_true]
    cases h : recipTry r <;> simp [h]
  · norm_num [effLengthScale, optTruthy, isTruthy, recipTry]

/-- C6 witness: the reciprocal equation instantiated at the truthy rate 2.0. -/
theorem rate_reciprocal_total_and_assigned_witness :
    effLengthScale none (some (PyFloat.finite 2)) = recipTry (PyFloat.finite 2) :=
  rate_reciprocal_total_and_assigned.1 (PyFloat.finite 2) (by simp [isTruthy])

/-- C7: the engine is invoked with syn_config = None exactly when speaker,
noise_scale, effective length_scale, noise_w and sentence_silence are all
absent; otherwise each of those fields is copied into the config object
exactly as present in the request, so a present zero (e.g. noise_scale = 0.0)
reaches the engine and is distinguishable from absence. -/
theorem syn_config_none_iff_all_fields_absent (req : SynthesisRequest) :
    (buildSynConfig req = none ↔
      (req.speaker = none ∧ req.noise_scale = none ∧ effLS req = none ∧
       req.noise_w = none ∧ req.sentence_silence = none)) ∧
    (∀ cfg, buildSynConfig req = some cfg →
      cfg.speaker_id = req.speaker ∧ cfg.noise_scale = req.noise_scale ∧
      cfg.length_scale = effLS req ∧ cfg.noise_w = req.noise_w ∧
      cfg.sentence_silence = req.sentence_silence) := by
  obtain ⟨t, sp, ns, lsx, nw, ss, rt, vol⟩ := req
  simp only [buildSynConfig, effLS]
  cases sp <;> cases ns <;> cases hls : effLengthScale lsx rt <;>
    cases nw <;> cases ss <;> simp_all

/-- C7 witness: the all-absent request maps to None, and the request whose
only parameter is noise_scale = 0.0 maps to a config carrying noise_scale
some 0. -/
theorem syn_config_none_iff_all_fields_absent_witness :
    buildSynConfig reqAllNone = none ∧
    cfgNoiseZero.noise_scale = some (PyFloat.finite 0) :=
  ⟨(syn_config_none_iff_all_fields_absent reqAllNone).1.mpr ⟨rfl, rfl, rfl, rfl, rfl⟩,
   ((syn_config_none_iff_all_fields_absent reqNoiseZero).2 cfgNoiseZero (by rfl)).2.1⟩

/-- C8: a request whose text strips to empty is rejected by the HTTP
synthesize endpoint with status 400 before any voice load or engine call: the
returned state equals the input state (no cache mutation, no engine
instantiation) and the engine invocation count is zero, so the audio pipeline
is never invoked with such text. -/
theorem empty_text_rejected_before_engine (env : Env) (vn : String)
    (req : SynthesisRequest) (st : VoiceState) (h : pyStrip req.text = "") :
    synth env vn req st = (.error (HErr.http 400 "Empty text"), st, 0) := by
  simp [synth, h]

/-- C8 witness: a whitespace-only request against the concrete environment. -/
theorem empty_text_rejected_before_engine_witness :
    synth envW "alice" reqWS stW = (.error (HErr.http 400 "Empty text"), stW, 0) :=
  empty_text_rejected_before_engine envW "alice" reqWS stW (by rfl)

/-- C9 counterexample: a tool call with an unknown tool name makes
handle_call_tool raise ValueError rather than return textual content, so the
adapter does not satisfy never-raises for every tool call. -/
theorem unknown_tool_name_raises :
    handleCallTool envW stW "bogus" argsW = Except.error ("Unknown tool: bogus") ∧
    isOkResult (handleCallTool envW stW "bogus" argsW) = false :=
  ⟨rfl, rfl⟩

/-- C9 amended: for each of the three defined tools, handling any arguments —
including an unknown voice, empty text, or unreadable config — returns
textual content and never propagates an exception; only an unknown tool name
raises. -/
theorem known_tools_always_return_content (env : Env) (st : VoiceState)
    (args : ToolArgs) (name : String)
    (h : name = "text_to_speech" ∨ name = "list_voices" ∨ name = "get_voice_info") :
    isOkResult (handleCallTool env st name args) = true := by
  rcases h with h | h | h <;> subst h <;> rfl

/-- C9 witness: the list_voices tool on the concrete environment returns
content. -/
theorem known_tools_always_return_content_witness :
    isOkResult (handleCallTool envW stW "list_voices" argsW) = true :=
  known_tools_always_return_content envW stW argsW "list_voices" (Or.inr (Or.inl rfl))

/-- C10: a volume of None or 0.0 is treated as not set by the falsy guards,
so both _apply_post_gain and its call sites pass every PCM sequence through
byte-identically rather than silencing or rejecting it. -/
theorem zero_or_unset_volume_passthrough :
    ∀ (samples chunk : List ℤ),
      applyPostGain samples none = samples ∧
      applyPostGain samples (some 0) = samples ∧
      processChunk chunk none = chunk ∧
      processChunk chunk (some 0) = chunk := by
  intro samples chunk
  exact ⟨rfl, by simp [applyPostGain], rfl, by simp [processChunk]⟩
